import Mathlib

/-!
# Verification of the errorex error-chaining package

Shallow embedding of the Go package `errorex` (files `errorex.go` and
`wrap.go`).  Go `error` interface values are modelled by `GoError`
(`none : Option GoError` stands for a nil interface value); the concrete
`*ErrorEx` type is the mutually inductive `ErrorEx`.  Pointer identity of
Go allocations is modelled by a numeric `id` carried by every allocated
value: distinct allocations receive distinct ids, and Go's `==` on error
interface values is id equality.

`ErrorEx.Error` renders a chain exactly as `errorex.go` does.  A call
that would be a runtime fault in Go (invoking `Error()` on a nil error
stored in the `extra` list) is modelled by the result `none`; a `some`
result is the string Go returns.  A panic that Go's `fmt` package
recovers while formatting a `%v`/`%w` operand is modelled by the fixed
marker string `recoveredV` (its precise content never matters below: all
theorems either exclude that situation by hypothesis or use inputs that
cannot reach it).
-/

namespace Errorex

mutual

/-- A Go `error` interface value: either an `errors.New` value
(`errorString`), a `fmt.Errorf("%w: ...")` value (`wrapError`, whose
message was computed at construction time and which unwraps to the
wrapped error), or a `*ErrorEx`. -/
inductive GoError : Type where
  | errorString (id : Nat) (msg : String)
  | wrapError (id : Nat) (msg : String) (wrapped : GoError)
  | ofEE (e : ErrorEx)


/-- The `ErrorEx` struct of `errorex.go`: text, format-placeholder flag,
optionally wrapped error `err`, optional `cause`, and the `extra` list
(whose elements may be nil: Go's `Extra` accepts and stores nil). -/
inductive ErrorEx : Type where
  | mk (id : Nat) (txt : String) (fmtFlag : Bool)
       (err : Option GoError) (cause : Option GoError)
       (extra : List (Option GoError))


end

/-- The `txt` field. -/
def ErrorEx.txt : ErrorEx → String
  | .mk _ t _ _ _ _ => t

/-- The allocation id standing for the node's address. -/
def ErrorEx.id : ErrorEx → Nat
  | .mk i _ _ _ _ _ => i

/-- The `fmt` field (format-placeholder flag). -/
def ErrorEx.fmtFlag : ErrorEx → Bool
  | .mk _ _ f _ _ _ => f

/-- The `err` field (the wrapped parent, nil for a root). -/
def ErrorEx.err : ErrorEx → Option GoError
  | .mk _ _ _ w _ _ => w

/-- The `cause` field. -/
def ErrorEx.cause : ErrorEx → Option GoError
  | .mk _ _ _ _ c _ => c

/-- The `extra` field. -/
def ErrorEx.extra : ErrorEx → List (Option GoError)
  | .mk _ _ _ _ _ x => x

/-- The allocation id of any Go error value. -/
def GoError.gid : GoError → Nat
  | .errorString i _ => i
  | .wrapError i _ _ => i
  | .ofEE e => e.id

/-- Marker standing for the `%!v(PANIC=...)` text Go's fmt package
produces when an `Error` method panics while formatting an operand. -/
def recoveredV : String := "%!v(PANIC)"

/-- The inner formatting loop (lines 86-93): the middle entries are
consumed from the far end of the remaining stack, so the input here is
the middle entries farthest-first; every entry but the last consumed
gets a trailing semicolon. -/
def midsFold (msg : String) : List String → String
  | [] => msg
  | [s] => msg ++ " " ++ s
  | s :: rest => midsFold (msg ++ " " ++ s ++ ";") rest

/-- The stack-formatting block of `Error` (lines 80-97), a pure function
of the built stack (nearest ancestor first) and the head message. -/
def formatStack (stk : List String) (message : String) : String :=
  match stk with
  | [] => message
  | [s] => s ++ ": " ++ message
  | _ :: _ :: _ =>
    midsFold (stk.getLastD "" ++ ":") stk.dropLast.reverse ++ " > " ++ message

mutual

/-- `(*ErrorEx).Error` from `errorex.go` (lines 58-105).  Returns `none`
when the Go code would fault (a nil error inside `extra` has its
`Error()` method called directly). -/
def ErrorEx.Error : ErrorEx → Option String
  | .mk _ txt fmtFlag err cause extra =>
    let base := if fmtFlag then "" else txt
    let base := match cause with
      | none => base
      | some c => base ++ " < " ++ ((GoError.errString c).getD recoveredV)
    (buildStack err).bind fun stk => extrasFold (formatStack stk base) extra
  termination_by e => sizeOf e

/-- Dynamic dispatch of the `error` interface's `Error()` method. -/
def GoError.errString : GoError → Option String
  | .errorString _ m => some m
  | .wrapError _ m _ => some m
  | .ofEE e => ErrorEx.Error e
  termination_by g => sizeOf g

/-- The wrap-stack building loop of `Error` (lines 67-78): walk the
`err` links while they hold `*ErrorEx` values; an ancestor with a cause
pushes the cause's rendering and then its own text; otherwise a
format-placeholder ancestor is skipped and a plain ancestor pushes its
text.  List head = first pushed = nearest ancestor. -/
def buildStack : Option GoError → Option (List String)
  | none => some []
  | some (.errorString _ _) => some []
  | some (.wrapError _ _ _) => some []
  | some (.ofEE (.mk _ txt fmtFlag err cause _)) =>
    (buildStack err).bind fun rest =>
      match cause with
      | some c => (GoError.errString c).map fun cs => cs :: txt :: rest
      | none => if fmtFlag then some rest else some (txt :: rest)
  termination_by o => sizeOf o

/-- The extra-appending loop of `Error` (lines 99-103): each extra error
has `Error()` called on it directly, so a nil entry faults (`none`). -/
def extrasFold : String → List (Option GoError) → Option String
  | msg, [] => some msg
  | _, none :: _ => none
  | msg, some e :: rest =>
    (GoError.errString e).bind fun s => extrasFold (msg ++ "; " ++ s) rest
  termination_by _msg l => sizeOf l

end

/-!
## Formatting primitives

The package formats through Go's `fmt`.  `FmtArg` is an `interface{}`
argument as used in this development (ints and strings); `goSprintf`
models the fragment of `fmt.Sprintf` covering the verbs `%d`, `%s`,
`%v` and `%%`, with Go's graceful degradation markers for a wrong
argument type, a missing argument, an unknown verb and surplus
arguments; `goSprint` models `fmt.Sprint` (operands concatenated, a
space inserted between two adjacent operands only when neither is a
string).  `fmt` never propagates a panic from these paths, so both are
total. -/

/-- An `interface{}` formatting operand. -/
inductive FmtArg : Type where
  | int (n : Int)
  | str (s : String)

/-- Default (`%v`) formatting of an operand. -/
def FmtArg.verbV : FmtArg → String
  | .int n => toString n
  | .str s => s

/-- `%d` formatting of an operand. -/
def FmtArg.verbD : FmtArg → String
  | .int n => toString n
  | .str s => "%!d(string=" ++ s ++ ")"

/-- `%s` formatting of an operand. -/
def FmtArg.verbS : FmtArg → String
  | .int n => "%!s(int=" ++ toString n ++ ")"
  | .str s => s

/-- Surplus-argument tail `%!(EXTRA ...)`. -/
def extraArgs : List FmtArg → String
  | [] => ""
  | args => "%!(EXTRA " ++ String.intercalate ", " (args.map FmtArg.verbV) ++ ")"

/-- Verb scanner of `fmt.Sprintf`. -/
def sprintfAux : List Char → List FmtArg → String
  | [], args => extraArgs args
  | ['%'], args => "%!(NOVERB)" ++ extraArgs args
  | '%' :: '%' :: rest, args => "%" ++ sprintfAux rest args
  | '%' :: 'd' :: rest, [] => "%!d(MISSING)" ++ sprintfAux rest []
  | '%' :: 'd' :: rest, a :: args => a.verbD ++ sprintfAux rest args
  | '%' :: 's' :: rest, [] => "%!s(MISSING)" ++ sprintfAux rest []
  | '%' :: 's' :: rest, a :: args => a.verbS ++ sprintfAux rest args
  | '%' :: 'v' :: rest, [] => "%!v(MISSING)" ++ sprintfAux rest []
  | '%' :: 'v' :: rest, a :: args => a.verbV ++ sprintfAux rest args
  | '%' :: c :: rest, args => "%!" ++ String.singleton c ++ "(NOVERB)" ++ sprintfAux rest args
  | c :: rest, args => String.singleton c ++ sprintfAux rest args

/-- `fmt.Sprintf`. -/
def goSprintf (format : String) (args : List FmtArg) : String :=
  sprintfAux format.toList args

/-- `fmt.Sprint`: concatenation of default-formatted operands, with a
space between two adjacent operands only when neither is a string. -/
def goSprint : List FmtArg → String
  | [] => ""
  | [a] => a.verbV
  | a :: b :: rest =>
    a.verbV ++ (match a, b with
      | .str _, _ => ""
      | _, .str _ => ""
      | _, _ => " ") ++ goSprint (b :: rest)

/-!
## Constructors and derivation methods (`errorex.go`)

Every Go constructor allocates; the fresh allocation's id is passed
explicitly as the first argument `i`. -/

/-- `New` (lines 32-37). -/
def New (i : Nat) (message : String) : ErrorEx :=
  .mk i message false none none []

/-- `NewFormat` (lines 39-47): `New` plus the format-placeholder flag. -/
def NewFormat (i : Nat) (format : String) : ErrorEx :=
  .mk i format true none none []

/-- `(*ErrorEx).Wrap` (lines 129-133). -/
def ErrorEx.Wrap (ee : ErrorEx) (i : Nat) (message : String) : ErrorEx :=
  .mk i message false (some (.ofEE ee)) none []

/-- `(*ErrorEx).WrapFormat` (lines 135-146): `Wrap` plus the flag. -/
def ErrorEx.WrapFormat (ee : ErrorEx) (i : Nat) (format : String) : ErrorEx :=
  .mk i format true (some (.ofEE ee)) none []

/-- `(*ErrorEx).WrapArgs` (lines 148-154): wraps with
`fmt.Sprintf(ee.txt, args...)` as the new text, unconditionally. -/
def ErrorEx.WrapArgs (ee : ErrorEx) (i : Nat) (args : List FmtArg) : ErrorEx :=
  ee.Wrap i (goSprintf ee.txt args)

/-- `(*ErrorEx).WrapCause` (lines 156-169). -/
def ErrorEx.WrapCause (ee : ErrorEx) (i : Nat) (message : String)
    (err : Option GoError) : ErrorEx :=
  .mk i message false (some (.ofEE ee)) err []

/-- `(*ErrorEx).WrapCauseArgs` (lines 171-176). -/
def ErrorEx.WrapCauseArgs (ee : ErrorEx) (i : Nat) (err : Option GoError)
    (args : List FmtArg) : ErrorEx :=
  .mk i (goSprintf ee.txt args) false (some (.ofEE ee)) err []

/-- `(*ErrorEx).Cause` (lines 178-181). -/
def ErrorEx.Cause (ee : ErrorEx) : Option GoError :=
  ee.cause

/-- `(*ErrorEx).Unwrap` (lines 124-127). -/
def ErrorEx.Unwrap (ee : ErrorEx) : Option GoError :=
  ee.err

/-- `(*ErrorEx).Extra` (lines 200-203): append to the receiver's
`extra` list.  In Go this mutates the node; here the updated node is
returned. -/
def ErrorEx.Extra (ee : ErrorEx) (err : Option GoError) : ErrorEx :=
  match ee with
  | .mk i t f w c x => .mk i t f w c (x ++ [err])

/-- `(*ErrorEx).Extras` (lines 205-208). -/
def ErrorEx.Extras (ee : ErrorEx) : List (Option GoError) :=
  ee.extra

/-!
## Identity (`errors.Is` and `(*ErrorEx).Is`)

Go's `errors.Is(err, target)` loop checks `err == target` (interface
identity, here id equality between allocated values), then the `Is`
method when present, then follows `Unwrap`.  For an `*ErrorEx` value
the method call `e.Is(target)` subsumes the identity check and the
unwrap iteration, so the loop collapses to the method.  `(*ErrorEx).is`
(lines 107-122) is identity with the target, or `errors.Is` on the
wrapped error, or `errors.Is` on the cause; a nil wrapped error or
cause makes the corresponding `errors.Is` call false for the non-nil
targets considered here. -/

mutual

/-- `errors.Is(err, target)` for non-nil `err` and `target`. -/
def errorsIs : GoError → GoError → Bool
  | .errorString i _, t => i == t.gid
  | .wrapError i _ w, t => i == t.gid || errorsIs w t
  | .ofEE e, t => eeIs e t
  termination_by g _ => sizeOf g

/-- `(*ErrorEx).is`/`Is` (lines 107-122). -/
def eeIs : ErrorEx → GoError → Bool
  | .mk i _ _ err cause _, t =>
    i == t.gid
    || (match err with
        | some w => errorsIs w t
        | none => false)
    || (match cause with
        | some c => errorsIs c t
        | none => false)
  termination_by e _ => sizeOf e

end

/-- `(*ErrorEx).Is`. -/
def ErrorEx.Is (ee : ErrorEx) (target : GoError) : Bool :=
  eeIs ee target

/-- `errors.Is(err, target)` where `err` may be a nil interface value
(then false for the non-nil targets considered here). -/
def errorsIsO : Option GoError → GoError → Bool
  | none, _ => false
  | some g, t => errorsIs g t

/-- `errors.Unwrap`-style unwrapping of any modelled error value:
`*wrapError` unwraps to the `%w` operand, `*ErrorEx` to its `err`
field, `*errorString` to nothing. -/
def GoError.Unwrap : GoError → Option GoError
  | .errorString _ _ => none
  | .wrapError _ _ w => some w
  | .ofEE e => e.err

/-!
## The standalone wrappers of `wrap.go`

`fmt.Errorf` with a single `%w` verb produces a `*wrapError` whose
message is computed at construction time and whose `Unwrap` returns the
`%w` operand.  `%s`/`%v` of an error value formats via its `Error()`
method (fmt recovers a panic there, `recoveredV`). -/

/-- `Wrap` from `wrap.go` (lines 12-20). -/
def Wrap (i : Nat) (err : Option GoError) (message : String) : Option GoError :=
  match err with
  | none => none
  | some e =>
    if message = "" then some e
    else some (.wrapError i (((GoError.errString e).getD recoveredV) ++ ": " ++ message) e)

/-- `WrapCause` from `wrap.go` (lines 26-40). -/
def WrapCause (i : Nat) (err cause : Option GoError) (message : String) :
    Option GoError :=
  match err with
  | none => none
  | some e =>
    match cause with
    | none =>
      if message = "" then some e
      else Wrap i (some e) message
    | some c =>
      if message = "" then
        some (.wrapError i
          (((GoError.errString e).getD recoveredV) ++ ": "
            ++ ((GoError.errString c).getD recoveredV)) e)
      else
        some (.wrapError i
          (((GoError.errString e).getD recoveredV) ++ ": " ++ message ++ ": "
            ++ ((GoError.errString c).getD recoveredV)) e)

/-!
## Auxiliary specification-side definitions

`ancestorNodes` lists the `*ErrorEx` ancestors reached from a wrapped
link, nearest first — exactly the nodes visited by the walk of `Error`.
`walkEntry`/`amendedWalk` restate the walk declaratively (per-ancestor
stack entries, concatenated nearest-first); `specC3Stack` and
`specC3Render` are the DIFFERENT walk that the specification describes
(skip an ancestor when its flag is set or its text is empty, and fuse a
cause into the ancestor's own entry with " < "), used to compare the
specification against the code.  `goodG`/`goodO`/`goodX` say that no
nil error was appended to any reachable `extra` list. -/

/-- The `*ErrorEx` nodes visited by the wrap-stack walk, nearest
ancestor first. -/
def ancestorNodes : Option GoError → List ErrorEx
  | some (.ofEE (.mk i t f w c x)) => .mk i t f w c x :: ancestorNodes w
  | _ => []
  termination_by o => sizeOf o

/-- The stack entries one walked ancestor contributes in `errorex.go`:
its rendered cause (if any) and then its text, or nothing when it is a
format placeholder without a cause. -/
def walkEntry : ErrorEx → Option (List String)
  | .mk _ txt fmtFlag _ cause _ =>
    match cause with
    | some c => (GoError.errString c).map fun cs => [cs, txt]
    | none => if fmtFlag then some [] else some [txt]

/-- Declarative restatement of the walk: each visited ancestor's
entries, concatenated nearest-ancestor first. -/
def amendedWalk : List ErrorEx → Option (List String)
  | [] => some []
  | a :: rest =>
    (walkEntry a).bind fun en => (amendedWalk rest).map fun es => en ++ es

mutual

/-- The walk as the SPECIFICATION describes it: skip an ancestor whose
flag is set or whose text is empty; a kept ancestor with a cause
contributes the single entry `txt ++ " < " ++ rendered cause`. -/
def specC3Stack : Option GoError → Option (List String)
  | none => some []
  | some (.errorString _ _) => some []
  | some (.wrapError _ _ _) => some []
  | some (.ofEE (.mk _ txt fmtFlag err cause _)) =>
    (specC3Stack err).bind fun rest =>
      if fmtFlag || txt = "" then some rest
      else
        match cause with
        | some c => (specC3Err c).map fun cs => (txt ++ " < " ++ cs) :: rest
        | none => some (txt :: rest)
  termination_by o => sizeOf o

/-- Rendering with the specification's walk; head message, stack
formatting and extras exactly as in the code. -/
def specC3Render : ErrorEx → Option String
  | .mk _ txt fmtFlag err cause extra =>
    let base := if fmtFlag then "" else txt
    let base := match cause with
      | none => base
      | some c => base ++ " < " ++ ((specC3Err c).getD recoveredV)
    (specC3Stack err).bind fun stk => specC3Extras (formatStack stk base) extra
  termination_by e => sizeOf e

/-- Interface dispatch for the specification-side renderer. -/
def specC3Err : GoError → Option String
  | .errorString _ m => some m
  | .wrapError _ m _ => some m
  | .ofEE e => specC3Render e
  termination_by g => sizeOf g

/-- Extras appending for the specification-side renderer. -/
def specC3Extras : String → List (Option GoError) → Option String
  | msg, [] => some msg
  | _, none :: _ => none
  | msg, some e :: rest =>
    (specC3Err e).bind fun s => specC3Extras (msg ++ "; " ++ s) rest
  termination_by _msg l => sizeOf l

end

mutual

/-- No nil error appended to an `extra` list anywhere reachable. -/
def goodG : GoError → Bool
  | .errorString _ _ => true
  | .wrapError _ _ w => goodG w
  | .ofEE (.mk _ _ _ err cause extra) => goodO err && goodO cause && goodX extra
  termination_by g => sizeOf g

/-- `goodG` lifted to a possibly-nil error value. -/
def goodO : Option GoError → Bool
  | none => true
  | some g => goodG g
  termination_by o => sizeOf o

/-- `goodG` over an `extra` list: no nil entries, entries themselves
good. -/
def goodX : List (Option GoError) → Bool
  | [] => true
  | none :: _ => false
  | some g :: rest => goodG g && goodX rest
  termination_by l => sizeOf l

end

/-!
## Theorems for the claims
-/

/-- Claim C1: a pure `New`/`Wrap` chain renders as the root text joined
with ":", the middle surviving ancestors oldest-first joined with ";",
and the head's own text set off with " > ": `"base"`, `"base: s1"`,
`"base: s1 > s2"`, `"base: s1; s2 > s3"`, `"base: s1; s2; s3 > s4"`.
Proved for arbitrary texts and allocation ids. -/
theorem C1_wrap_chain_render (i0 i1 i2 i3 i4 : Nat) (b s1 s2 s3 s4 : String) :
    (New i0 b).Error = some b
    ∧ ((New i0 b).Wrap i1 s1).Error = some (b ++ ": " ++ s1)
    ∧ (((New i0 b).Wrap i1 s1).Wrap i2 s2).Error = some (b ++ ": " ++ s1 ++ " > " ++ s2)
    ∧ ((((New i0 b).Wrap i1 s1).Wrap i2 s2).Wrap i3 s3).Error
        = some (b ++ ": " ++ s1 ++ "; " ++ s2 ++ " > " ++ s3)
    ∧ (((((New i0 b).Wrap i1 s1).Wrap i2 s2).Wrap i3 s3).Wrap i4 s4).Error
        = some (b ++ ": " ++ s1 ++ "; " ++ s2 ++ "; " ++ s3 ++ " > " ++ s4) := by
  refine ⟨?_, ?_, ?_, ?_, ?_⟩ <;>
    simp [New, ErrorEx.Wrap, ErrorEx.Error, buildStack, extrasFold, formatStack, midsFold,
      String.append_assoc]

/-- Claim C2, amended: for a node whose surviving ancestor stack is
`[p1, p2, p3]` (p1 nearest) and whose own message is its text (no
cause, no flag, no extras), the rendering is `p3 ++ ": " ++ p2 ++ "; "
++ p1 ++ " > " ++ txt` — the middle entries appear farthest-first
(p2 before p1), not `p1; p2` as the claim stated. -/
theorem C2_stack_render_order (e : ErrorEx) (p1 p2 p3 : String)
    (hstk : buildStack e.err = some [p1, p2, p3])
    (hf : e.fmtFlag = false) (hc : e.cause = none) (hx : e.extra = []) :
    e.Error = some (p3 ++ ": " ++ p2 ++ "; " ++ p1 ++ " > " ++ e.txt) := by
  obtain ⟨i, t, f, w, c, x⟩ := e
  simp only [ErrorEx.fmtFlag] at hf
  simp only [ErrorEx.cause] at hc
  simp only [ErrorEx.extra] at hx
  simp only [ErrorEx.err] at hstk
  subst hf hc hx
  simp [ErrorEx.Error, ErrorEx.txt, hstk, extrasFold, formatStack, midsFold,
    String.append_assoc]

/-- Claim C2, witness: the amended rendering theorem applied to the
concrete chain `New "p3" → Wrap "p2" → Wrap "p1" → Wrap "m"`. -/
theorem C2_stack_render_order_witness :
    ((((New 0 "p3").Wrap 1 "p2").Wrap 2 "p1").Wrap 3 "m").Error
      = some ("p3" ++ ": " ++ "p2" ++ "; " ++ "p1" ++ " > "
          ++ ((((New 0 "p3").Wrap 1 "p2").Wrap 2 "p1").Wrap 3 "m").txt) :=
  C2_stack_render_order _ "p1" "p2" "p3"
    (by simp [New, ErrorEx.Wrap, ErrorEx.err, buildStack]) rfl rfl rfl

/-- Claim C2, counterexample: the chain `New "p3" → Wrap "p2" → Wrap
"p1" → Wrap "m"` has surviving ancestor stack `[p1, p2, p3]` (nearest
first) and final message `m`, yet renders `"p3: p2; p1 > m"`, not the
`"p3: p1; p2 > m"` the claim demands. -/
theorem C2_middle_order_counterexample :
    buildStack ((((New 0 "p3").Wrap 1 "p2").Wrap 2 "p1").Wrap 3 "m").err
        = some ["p1", "p2", "p3"]
    ∧ ((((New 0 "p3").Wrap 1 "p2").Wrap 2 "p1").Wrap 3 "m").Error = some "p3: p2; p1 > m"
    ∧ ("p3: p2; p1 > m" : String) ≠ "p3: p1; p2 > m" := by
  refine ⟨?_, ?_, by decide⟩ <;>
    simp [New, ErrorEx.Wrap, ErrorEx.err, ErrorEx.Error, buildStack, extrasFold,
      formatStack, midsFold]

/-- Claim C3, amended: the wrap-stack walk visits every `*ErrorEx`
ancestor and contributes, per ancestor: the rendered cause as a
SEPARATE stack entry followed by the ancestor's text when it has a
cause (even a format placeholder); nothing when it is a format
placeholder without a cause; and its text alone otherwise — ancestors
with empty text are kept.  Stated as: the code's walk equals the
declarative per-ancestor entry concatenation `amendedWalk` over
`ancestorNodes`. -/
theorem C3_walk_characterization (o : Option GoError) :
    buildStack o = amendedWalk (ancestorNodes o) := by
  induction o using ancestorNodes.induct with
  | case1 i t f w c x ih =>
    rw [ancestorNodes]
    rw [buildStack, amendedWalk, walkEntry.eq_def, ih]
    cases c with
    | none =>
      cases f <;> cases amendedWalk (ancestorNodes w) <;> simp
    | some cc =>
      cases hc : GoError.errString cc <;> cases amendedWalk (ancestorNodes w) <;> simp [hc]
  | case2 o hno =>
    match o, hno with
    | none, _ => rw [ancestorNodes.eq_def, buildStack, amendedWalk]
    | some (.errorString i m), _ => rw [ancestorNodes.eq_def, buildStack, amendedWalk]
    | some (.wrapError i m ww), _ => rw [ancestorNodes.eq_def, buildStack, amendedWalk]
    | some (.ofEE (.mk i t f w c x)), hno => exact absurd rfl (hno i t f w c x)

/-- Claim C3, counterexample: for the chain `New "A" → WrapCause "B"
(cause New "C") → Wrap "D"`, the code pushes the ancestor's rendered
cause as a separate stack entry and renders `"A: B; C > D"`, while the
walk the claim describes (cause fused into the ancestor's entry with
" < ") would render `"A: B < C > D"`. -/
theorem C3_walk_counterexample :
    (((New 0 "A").WrapCause 1 "B" (some (.ofEE (New 2 "C")))).Wrap 3 "D").Error
        = some "A: B; C > D"
    ∧ specC3Render (((New 0 "A").WrapCause 1 "B" (some (.ofEE (New 2 "C")))).Wrap 3 "D")
        = some "A: B < C > D"
    ∧ ("A: B; C > D" : String) ≠ "A: B < C > D" := by
  refine ⟨?_, ?_, by decide⟩ <;>
    simp [New, ErrorEx.Wrap, ErrorEx.WrapCause, ErrorEx.Error, specC3Render, specC3Stack,
      specC3Err, specC3Extras, buildStack, extrasFold, formatStack, midsFold,
      GoError.errString]

/-- Any node in the visited ancestor list of a wrapped link is found by
`errors.Is` on that link. -/
theorem mem_ancestorNodes_errorsIsO (o : Option GoError) (a : ErrorEx)
    (h : a ∈ ancestorNodes o) : errorsIsO o (.ofEE a) = true := by
  induction o using ancestorNodes.induct with
  | case1 i t f w c x ih =>
    rw [ancestorNodes] at h
    rcases List.mem_cons.mp h with h1 | h2
    · subst h1
      simp [errorsIsO, errorsIs, eeIs.eq_def, GoError.gid, ErrorEx.id]
    · have hw := ih h2
      cases w with
      | none => simp [errorsIsO] at hw
      | some g =>
        simp only [errorsIsO] at hw
        simp [errorsIsO, errorsIs, eeIs.eq_def, hw]
  | case2 o hno =>
    match o, hno with
    | none, _ => simp [ancestorNodes.eq_def] at h
    | some (.errorString i m), _ => simp [ancestorNodes.eq_def] at h
    | some (.wrapError i m ww), _ => simp [ancestorNodes.eq_def] at h
    | some (.ofEE (.mk i t f w c x)), hno => exact absurd rfl (hno i t f w c x)

/-- Claim C4: a node answers `Is` true for itself and every ancestor of
its wrapped chain, and for every ancestor of an attached cause chain;
and the concrete `base := New "X"`, `mid := base.Wrap "Y"`,
`leaf := mid.Wrap "Z"` chain answers true for `base` and `mid` but
false for a freshly allocated `New "X"` (identity, not text). -/
theorem C4_is_ancestors_and_cause :
    (∀ (e a : ErrorEx), a ∈ ancestorNodes (some (.ofEE e)) → e.Is (.ofEE a) = true)
    ∧ (∀ (n c a : ErrorEx) (i : Nat) (m : String),
        a ∈ ancestorNodes (some (.ofEE c)) →
        (n.WrapCause i m (some (.ofEE c))).Is (.ofEE a) = true)
    ∧ (((New 0 "X").Wrap 1 "Y").Wrap 2 "Z").Is (.ofEE (New 0 "X")) = true
    ∧ (((New 0 "X").Wrap 1 "Y").Wrap 2 "Z").Is (.ofEE ((New 0 "X").Wrap 1 "Y")) = true
    ∧ (((New 0 "X").Wrap 1 "Y").Wrap 2 "Z").Is (.ofEE (New 3 "X")) = false := by
  have key : ∀ (e a : ErrorEx), a ∈ ancestorNodes (some (.ofEE e)) →
      e.Is (.ofEE a) = true := by
    intro e a h
    have := mem_ancestorNodes_errorsIsO _ a h
    simpa [errorsIsO, errorsIs] using this
  refine ⟨key, ?_, ?_, ?_, ?_⟩
  · intro n c a i m h
    have hc := mem_ancestorNodes_errorsIsO (some (.ofEE c)) a h
    simp only [errorsIsO] at hc
    simp [ErrorEx.Is, ErrorEx.WrapCause, eeIs.eq_def, hc]
  · exact key _ _ (by simp [ancestorNodes, New, ErrorEx.Wrap])
  · exact key _ _ (by simp [ancestorNodes, New, ErrorEx.Wrap])
  · simp [ErrorEx.Is, New, ErrorEx.Wrap, eeIs.eq_def, errorsIs, GoError.gid, ErrorEx.id]

/-- Claim C4, witness: the ancestor part applied to a two-level chain
and the cause part applied to a concrete cause chain. -/
theorem C4_is_ancestors_and_cause_witness :
    (((New 0 "X").Wrap 1 "Y").Wrap 2 "Z").Is (.ofEE ((New 0 "X").Wrap 1 "Y")) = true
    ∧ ((New 4 "n").WrapCause 5 "E" (some (.ofEE ((New 6 "cb").Wrap 7 "cd")))).Is
        (.ofEE (New 6 "cb")) = true := by
  constructor
  · exact C4_is_ancestors_and_cause.1 _ _ (by simp [ancestorNodes, New, ErrorEx.Wrap])
  · exact C4_is_ancestors_and_cause.2.1 _ _ _ 5 "E"
      (by simp [ancestorNodes, New, ErrorEx.Wrap])

/-- Claim C5: the standalone wrappers of `wrap.go`.  `Wrap` returns nil
exactly for nil input, returns the error unchanged for an empty
message, and otherwise yields an error displaying `"<err>: <message>"`
that unwraps to the error.  `WrapCause` returns nil exactly for nil
input, equals `Wrap` for a nil cause, and displays `"<err>: <cause>"`
or `"<err>: <message>: <cause>"`, always unwrapping to the error. -/
theorem C5_standalone_wrappers (i : Nat) (e c : GoError) (m s cs : String) :
    (Wrap i none m = none)
    ∧ (Wrap i (some e) m ≠ none)
    ∧ (Wrap i (some e) "" = some e)
    ∧ (m ≠ "" → GoError.errString e = some s →
        ∃ w, Wrap i (some e) m = some w
          ∧ w.errString = some (s ++ ": " ++ m) ∧ w.Unwrap = some e)
    ∧ (WrapCause i none (some c) m = none ∧ WrapCause i none none m = none)
    ∧ (WrapCause i (some e) none m = Wrap i (some e) m)
    ∧ (WrapCause i (some e) (some c) m ≠ none)
    ∧ (GoError.errString e = some s → GoError.errString c = some cs →
        (∃ w, WrapCause i (some e) (some c) "" = some w
          ∧ w.errString = some (s ++ ": " ++ cs) ∧ w.Unwrap = some e)
        ∧ (m ≠ "" → ∃ w, WrapCause i (some e) (some c) m = some w
            ∧ w.errString = some (s ++ ": " ++ m ++ ": " ++ cs) ∧ w.Unwrap = some e)) := by
  refine ⟨rfl, ?_, by simp [Wrap], ?_, ⟨rfl, rfl⟩, ?_, ?_, ?_⟩
  · by_cases hm : m = "" <;> simp [Wrap, hm]
  · intro hm hs
    refine ⟨.wrapError i ((GoError.errString e).getD recoveredV ++ ": " ++ m) e,
      by simp [Wrap, hm], ?_, rfl⟩
    simp [GoError.errString, hs]
  · by_cases hm : m = "" <;> simp [WrapCause, Wrap, hm]
  · by_cases hm : m = "" <;> simp [WrapCause, hm]
  · intro hs hcs
    constructor
    · refine ⟨.wrapError i ((GoError.errString e).getD recoveredV ++ ": "
          ++ ((GoError.errString c).getD recoveredV)) e,
        by simp [WrapCause], ?_, rfl⟩
      simp [GoError.errString, hs, hcs]
    · intro hm
      refine ⟨.wrapError i ((GoError.errString e).getD recoveredV ++ ": " ++ m ++ ": "
          ++ ((GoError.errString c).getD recoveredV)) e,
        by simp [WrapCause, hm], ?_, rfl⟩
      simp [GoError.errString, hs, hcs]

/-- Claim C5, witness: `Wrap` with message `"message"` around
`errors.New("test")`, and `WrapCause` with an empty message around the
same error with cause `errors.New("cause")`. -/
theorem C5_standalone_wrappers_witness :
    (∃ w, Wrap 1 (some (.errorString 0 "test")) "message" = some w
      ∧ w.errString = some ("test" ++ ": " ++ "message")
      ∧ w.Unwrap = some (.errorString 0 "test"))
    ∧ (∃ w, WrapCause 3 (some (.errorString 0 "test")) (some (.errorString 2 "cause")) ""
        = some w
      ∧ w.errString = some ("test" ++ ": " ++ "cause")
      ∧ w.Unwrap = some (.errorString 0 "test")) := by
  constructor
  · exact (C5_standalone_wrappers 1 (.errorString 0 "test") (.errorString 2 "cause")
      "message" "test" "cause").2.2.2.1 (by decide) (by rw [GoError.errString])
  · exact ((C5_standalone_wrappers 3 (.errorString 0 "test") (.errorString 2 "cause")
      "message" "test" "cause").2.2.2.2.2.2.2
      (by rw [GoError.errString]) (by rw [GoError.errString])).1

/-- Claim C6: the template round-trip.  `NewFormat "v=%d"` derived with
argument 7 renders exactly `"v=7"` (the template ancestor contributes
nothing), and the template node rendered directly renders as the empty
string. -/
theorem C6_template_roundtrip (i j : Nat) :
    ((NewFormat i "v=%d").WrapArgs j [.int 7]).Error = some "v=7"
    ∧ (NewFormat i "v=%d").Error = some "" := by
  have h7 : goSprintf "v=%d" [FmtArg.int 7] = "v=7" := rfl
  constructor
  · simp [NewFormat, ErrorEx.WrapArgs, ErrorEx.Wrap, ErrorEx.txt, h7, ErrorEx.Error,
      buildStack, extrasFold, formatStack]
  · simp [NewFormat, ErrorEx.Error, buildStack, extrasFold, formatStack]

/-- Claim C7, amended: `WrapArgs` ALWAYS formats the receiver's text as
a format string with the given arguments (never failing, with Go's
graceful degradation on mismatches), whatever the receiver's
format-placeholder flag; there is no concatenation fallback for
non-template receivers. -/
theorem C7_wrapargs_always_formats (e : ErrorEx) (i : Nat) (args : List FmtArg) :
    e.WrapArgs i args = e.Wrap i (goSprintf e.txt args)
    ∧ (e.WrapArgs i args).txt = goSprintf e.txt args
    ∧ (e.WrapArgs i args).Unwrap = some (.ofEE e)
    ∧ (e.WrapArgs i args).fmtFlag = false :=
  ⟨rfl, rfl, rfl, rfl⟩

/-- Claim C7, counterexample: on the non-template node `New "%s error"`
the derivation with argument `"test"` produces the formatted text
`"test error"`, not the concatenation `fmt.Sprint("test") = "test"` of
the stringified arguments that the claim's fallback demands. -/
theorem C7_no_concat_fallback_counterexample :
    ((New 0 "%s error").WrapArgs 1 [.str "test"]).txt = "test error"
    ∧ (New 0 "%s error").fmtFlag = false
    ∧ goSprint [.str "test"] = "test"
    ∧ ("test error" : String) ≠ "test" :=
  ⟨rfl, rfl, rfl, by decide⟩

/-- Claim C8, amended: provided no nil error value was appended to any
reachable `extra` list, `Error` completes and returns a string (all
other operations are total functions of the model outright); the nil
counterexample shows the original unrestricted claim fails. -/
theorem C8_render_total_without_nil_extras (e : ErrorEx)
    (h : goodG (.ofEE e) = true) :
    (ErrorEx.Error e).isSome = true := by
  refine ErrorEx.Error.induct
    (fun e => goodG (.ofEE e) = true → (ErrorEx.Error e).isSome = true)
    (fun msg l => goodX l = true → (extrasFold msg l).isSome = true)
    (fun g => goodG g = true → (GoError.errString g).isSome = true)
    (fun o => goodO o = true → (buildStack o).isSome = true)
    ?_ ?_ ?_ ?_ ?_ ?_ ?_ ?_ ?_ ?_ ?_ e h
  · intro i t f err cause extra base1 base2 hc herr hextra hg
    rw [goodG] at hg
    simp only [Bool.and_eq_true] at hg
    obtain ⟨⟨ho, hco⟩, hx⟩ := hg
    obtain ⟨stk, hstk⟩ := Option.isSome_iff_exists.mp (herr ho)
    simp only [ErrorEx.Error.eq_def, hstk]
    exact hextra stk hx
  · intro msg hx
    simp [extrasFold]
  · intro x tail hx
    simp [goodX] at hx
  · intro msg g rest hg hrest hx
    rw [goodX, Bool.and_eq_true] at hx
    obtain ⟨hg1, hrest1⟩ := hx
    rw [extrasFold]
    obtain ⟨s, hs⟩ := Option.isSome_iff_exists.mp (hg hg1)
    rw [hs]
    simpa using hrest s hrest1
  · intro i m _
    simp [GoError.errString]
  · intro i m w _
    simp [GoError.errString]
  · intro e ih hg
    rw [GoError.errString]
    exact ih hg
  · intro _
    simp [buildStack]
  · intro i m _
    simp [buildStack]
  · intro i m w _
    simp [buildStack]
  · intro i t f err cause extra herr hc ho
    rw [goodO, goodG] at ho
    simp only [Bool.and_eq_true] at ho
    obtain ⟨⟨hoe, hoc⟩, _⟩ := ho
    rw [buildStack]
    obtain ⟨rest, hrest⟩ := Option.isSome_iff_exists.mp (herr hoe)
    rw [hrest]
    cases cause with
    | none => cases f <;> simp
    | some cc =>
      rw [goodO] at hoc
      obtain ⟨cs, hcs⟩ := Option.isSome_iff_exists.mp (hc hoc)
      simp [hcs]

/-- Claim C8, witness: the totality theorem applied to `New "A"`. -/
theorem C8_render_total_without_nil_extras_witness :
    (ErrorEx.Error (New 0 "A")).isSome = true :=
  C8_render_total_without_nil_extras (New 0 "A") (by rw [New, goodG, goodO, goodX]; rfl)

/-- Claim C8, counterexample: appending a nil error via `Extra` and
rendering faults (the nil entry's `Error()` method is invoked), modelled
by the `none` result — the machinery does raise a runtime fault for
this input. -/
theorem C8_nil_extra_counterexample :
    ((New 0 "A").Extra none).Error = none := by
  simp [New, ErrorEx.Extra, ErrorEx.Error, buildStack, extrasFold, formatStack]

/-- Claim C9: `Is` never consults the extra list — appending any error
(nil or not) via `Extra` changes no `Is` answer, and `Is` is exactly
identity with the target, or a match through the wrapped chain, or a
match through the cause. -/
theorem C9_is_ignores_extras (e : ErrorEx) (x : Option GoError) (t : GoError) :
    (e.Extra x).Is t = e.Is t
    ∧ e.Is t = (e.id == t.gid || errorsIsO e.err t || errorsIsO e.cause t) := by
  obtain ⟨i, txt, f, w, c, ex⟩ := e
  constructor
  · rw [ErrorEx.Is, ErrorEx.Is, ErrorEx.Extra, eeIs.eq_def, eeIs.eq_def]
  · cases w <;> cases c <;>
      simp [ErrorEx.Is, eeIs.eq_def, errorsIsO, ErrorEx.id, ErrorEx.err, ErrorEx.cause]

/-- Claim C10: deriving with a nil cause is indistinguishable from a
plain derivation — same rendering, `Cause` returns nil, and the same
`Is` answer for every target. -/
theorem C10_nil_cause_plain_wrap (n : ErrorEx) (i : Nat) (m : String) :
    (n.WrapCause i m none).Error = (n.Wrap i m).Error
    ∧ (n.WrapCause i m none).Cause = none
    ∧ ∀ t, (n.WrapCause i m none).Is t = (n.Wrap i m).Is t :=
  ⟨rfl, rfl, fun _ => rfl⟩

end Errorex
